import Mathlib

/-!
Shallow embedding of the semantic-FAQ answer pipeline:
topic classification (app/services/router.py), similarity matching
(app/services/similarity.py), the answer orchestration endpoint
(app/api/endpoints.py), retry configuration (app/core/decorators.py,
app/core/constants.py) and the request schema (app/schemas/question.py).

Numeric scores (Python floats) are modelled as rationals.  The three
remote collaborators (embedding service, classification completion,
generative fallback) and the pgVector-computed similarity are opaque
parameters of the pipeline, exactly as the source treats them.

The spec names the envelope source tags abstractly as `local`,
`generated` and `off_topic`; the code renders them as the strings
"local", "openai" and "compliance" respectively
(app/schemas/question.py lines 20-24, app/api/endpoints.py).
-/

/-- Constant from app/core/constants.py line 45. -/
def RETRY_MAX_ATTEMPTS : Nat := 3

/-- Constant from app/core/constants.py line 48 (seconds). -/
def RETRY_MIN_WAIT : ℚ := 2

/-- Constant from app/core/constants.py line 51 (seconds). -/
def RETRY_MAX_WAIT : ℚ := 10

/-- Constant from app/core/constants.py line 54. -/
def RETRY_MULTIPLIER : ℚ := 1

/-- Constant from app/core/constants.py line 62. -/
def COMPLIANCE_MESSAGE : String :=
  "This is not really what I was trained for, therefore I cannot answer. Try again."

/-- Python `str.strip()` on a character list: drop whitespace at both ends. -/
def pyStrip (s : List Char) : List Char :=
  ((s.dropWhile Char.isWhitespace).reverse.dropWhile Char.isWhitespace).reverse

/-- Python `str.strip()` on strings (endpoints.py line 59, router.py line 50). -/
def pyStripStr (s : String) : String :=
  ⟨pyStrip s.toList⟩

/-- Python substring containment `tok in s` on character lists. -/
def hasTok (tok : List Char) : List Char → Bool
  | [] => tok.isEmpty
  | c :: rest => List.isPrefixOf tok (c :: rest) || hasTok tok rest

/-- Embeds `classify_question` (app/services/router.py lines 38-63).  The raw
completion returned by the remote classification chain is `some content`; an
outright call failure (exception after the collaborator-side retries) is
`none`, which the `except` branch turns into `True` (fail open, line 63).
On success the content is stripped, uppercased, and scanned for the
substrings `IT_RELATED` and `YES` (line 51). -/
def classify_question (classifyRaw : Option String) : Bool :=
  match classifyRaw with
  | none => true
  | some content =>
    let classification := (pyStrip content.toList).map Char.toUpper
    hasTok "IT_RELATED".toList classification || hasTok "YES".toList classification

/-- Embeds `route_question` (app/services/router.py lines 76-97). -/
def route_question (classifyRaw : Option String) : String × Bool :=
  if classify_question classifyRaw then ("it_related", true) else ("compliance", false)

/-- Embeds `get_compliance_response` (app/services/router.py lines 66-73). -/
def get_compliance_response : String := COMPLIANCE_MESSAGE

/-- Embeds the `FAQ` row (app/db/models.py lines 8-19); the embedding column
is nullable, the vector itself is a rational list. -/
structure FAQ where
  id : Nat
  question : String
  answer : String
  embedding : Option (List ℚ)
  collection_name : String
deriving DecidableEq, Repr

/-- Embeds the optional collection filter of `search_similar_faq`
(similarity.py lines 46-47).  Python `if collection_name:` is falsy both for
`None` and for the empty string. -/
def applyCollectionFilter (collection_name : Option String) (rows : List FAQ) : List FAQ :=
  match collection_name with
  | some c => if c = "" then rows else rows.filter (fun f => f.collection_name == c)
  | none => rows

/-- The rows the similarity query scores (similarity.py lines 38-47): every
stored row whose embedding is present (`FAQ.embedding.isnot(None)`), then the
optional collection filter, each labelled with the DB-computed similarity
`1 - cosine_distance(embedding, query_embedding)` (opaque parameter `sim`). -/
def scoredRows (sim : List ℚ → List ℚ → ℚ) (corpus : List FAQ)
    (query_embedding : List ℚ) (collection_name : Option String) : List (FAQ × ℚ) :=
  (applyCollectionFilter collection_name (corpus.filter (fun f => f.embedding.isSome))).map
    (fun f => (f, sim (f.embedding.getD []) query_embedding))

/-- One deterministic refinement of `ORDER BY similarity DESC ... first()`,
used to run the pipeline on concrete inputs: a running best over the rows in
stored order, replaced only when strictly better.  The SQL itself
(similarity.py line 51) orders by the similarity label alone, with no
secondary sort key, so it guarantees no particular order among tied rows;
`firstRowAdmissible` below states what every outcome the query may produce
satisfies, and `search_similar_faq_admissible` shows this refinement always
picks one of those admissible outcomes. -/
def pickBest (b : FAQ × ℚ) : List (FAQ × ℚ) → FAQ × ℚ
  | [] => b
  | x :: xs => pickBest (if b.2 < x.2 then x else b) xs

/-- Top row of the deterministic refinement in `pickBest`, `none` when no row
survives the filters (similarity.py lines 51-55). -/
def bestScored : List (FAQ × ℚ) → Option (FAQ × ℚ)
  | [] => none
  | x :: xs => some (pickBest x xs)

/-- The outcomes `query.order_by(desc('similarity')).first()` may produce
(similarity.py line 51).  The query sorts on the similarity label alone —
there is no secondary sort key, PostgreSQL gives no stability or tie-order
guarantee, and the docstring notes an IVFFlat index — so any row of maximal
similarity may come back first; no row comes back only when no row survived
the filters. -/
def firstRowAdmissible (rows : List (FAQ × ℚ)) : Option (FAQ × ℚ) → Prop
  | none => rows = []
  | some r => r ∈ rows ∧ ∀ x ∈ rows, x.2 ≤ r.2

/-- Embeds `search_similar_faq` (similarity.py lines 11-64): embed the user
question (opaque collaborator `embed` for `generate_embedding`), score the
filtered corpus, take one admissible top row (via the deterministic
refinement `bestScored`); an empty result returns `(None, 0.0)`
(lines 53-55). -/
def search_similar_faq (sim : List ℚ → List ℚ → ℚ) (embed : String → List ℚ)
    (corpus : List FAQ) (user_question : String) (collection_name : Option String) :
    Option FAQ × ℚ :=
  let query_embedding := embed user_question
  match bestScored (scoredRows sim corpus query_embedding collection_name) with
  | none => (none, 0)
  | some (f, s) => (some f, s)

/-- Embeds `find_best_match` (similarity.py lines 67-96): the threshold gate
`if faq and similarity_score >= threshold` on the raw, unrounded score. -/
def find_best_match (sim : List ℚ → List ℚ → ℚ) (embed : String → List ℚ)
    (corpus : List FAQ) (user_question : String) (threshold : ℚ)
    (collection_name : Option String) : Option FAQ × ℚ × Bool :=
  match search_similar_faq sim embed corpus user_question collection_name with
  | (some f, s) => if threshold ≤ s then (some f, s, true) else (some f, s, false)
  | (none, s) => (none, s, false)

/-- Round half to even on rationals, the rounding mode of Python `round`. -/
def roundHalfEven (q : ℚ) : ℤ :=
  let f := ⌊q⌋
  let r := q - (f : ℚ)
  if r < 1/2 then f
  else if 1/2 < r then f + 1
  else if f % 2 = 0 then f else f + 1

/-- Python `round(x, 4)` (endpoints.py lines 97 and 110). -/
def pyRound4 (q : ℚ) : ℚ :=
  (roundHalfEven (q * 10000) : ℚ) / 10000

/-- Embeds `QuestionResponse` (app/schemas/question.py lines 17-39). -/
structure QuestionResponse where
  source : String
  matched_question : String
  answer : String
  similarity_score : Option ℚ
deriving DecidableEq, Repr

/-- Result of the endpoint: a response envelope or an HTTP error. -/
inductive AskResult where
  | ok : QuestionResponse → AskResult
  | httpError : Nat → String → AskResult
deriving DecidableEq, Repr

/-- Remote calls and the similarity search, logged in pipeline order so that
"never invoked" properties are statable. -/
inductive CallTag where
  | classifyCall
  | embedCall
  | similarityCall
  | generateCall
deriving DecidableEq, Repr

/-- The opaque collaborators and read-only state one request sees:
`classifyRaw` is the classification completion for this question (`none`
models an outright failure), `embed` is `generate_embedding`, `sim` the
pgVector-computed similarity, `corpus` the FAQ table in stored order,
`threshold` is `settings.similarity_threshold`, and `openaiAnswer` is
`get_openai_answer` (the generative fallback, an opaque remote call). -/
structure Env where
  classifyRaw : Option String
  embed : String → List ℚ
  sim : List ℚ → List ℚ → ℚ
  corpus : List FAQ
  threshold : ℚ
  openaiAnswer : String → String

/-- Embeds `ask_question` (app/api/endpoints.py lines 44-111) together with
the list of remote calls it performs: strip the question, reject when empty,
route, and either answer with the compliance message, the local FAQ answer
(score rounded to 4 decimals, line 97), or the generative fallback (score
rounded when a candidate existed, else absent, line 110). -/
def ask_question (env : Env) (raw_question : String) : AskResult × List CallTag :=
  let user_question := pyStripStr raw_question
  if user_question = "" then
    (AskResult.httpError 400 "Question cannot be empty", [])
  else
    let routed := route_question env.classifyRaw
    if routed.2 then
      match find_best_match env.sim env.embed env.corpus user_question env.threshold none with
      | (some f, s, true) =>
        (AskResult.ok
           { source := "local", matched_question := f.question,
             answer := f.answer, similarity_score := some (pyRound4 s) },
         [CallTag.classifyCall, CallTag.embedCall, CallTag.similarityCall])
      | (faqOpt, s, _) =>
        (AskResult.ok
           { source := "openai", matched_question := "N/A",
             answer := env.openaiAnswer user_question,
             similarity_score := if faqOpt.isSome then some (pyRound4 s) else none },
         [CallTag.classifyCall, CallTag.embedCall, CallTag.similarityCall,
          CallTag.generateCall])
    else
      (AskResult.ok
         { source := "compliance", matched_question := "N/A",
           answer := get_compliance_response, similarity_score := none },
       [CallTag.classifyCall])

/-- Modelled from the spec: the backoff wait of the external tenacity library
(`wait_exponential(multiplier, min, max)`, configured in
app/core/decorators.py lines 31-35), clamped as
`max(max(0, min), min(multiplier * 2 ^ (attempt - 1), max))`. -/
def retryWait (attempt : Nat) : ℚ :=
  max (max 0 RETRY_MIN_WAIT) (min (RETRY_MULTIPLIER * 2 ^ (attempt - 1)) RETRY_MAX_WAIT)

/-- Modelled from the spec: the retry loop of the external tenacity library
(`retry(stop=stop_after_attempt(...), wait=..., reraise=True)`, configured in
app/core/decorators.py lines 29-37).  `op n` is the n-th attempt of the
wrapped operation; the fuel counts the retries still allowed after the
current attempt.  Returns the final outcome, the attempt numbers made, and
the waits slept before each retry. -/
def retryRun (op : Nat → Except String String) :
    Nat → Nat → Except String String × List Nat × List ℚ
  | attempt, 0 => (op attempt, [attempt], [])
  | attempt, fuel + 1 =>
    match op attempt with
    | Except.ok a => (Except.ok a, [attempt], [])
    | Except.error _ =>
      let rest := retryRun op (attempt + 1) fuel
      (rest.1, attempt :: rest.2.1, retryWait attempt :: rest.2.2)

/-- Embeds `retry_on_api_error` (app/core/decorators.py lines 13-37): the
tenacity loop instantiated with the constants of app/core/constants.py. -/
def retry_on_api_error (op : Nat → Except String String) :
    Except String String × List Nat × List ℚ :=
  retryRun op 1 (RETRY_MAX_ATTEMPTS - 1)

/-- Length bounds of `QuestionRequest.user_question`
(app/schemas/question.py lines 8-14). -/
def QUESTION_MIN_LENGTH : Nat := 1

/-- Length bound of `QuestionRequest.user_question`
(app/schemas/question.py line 11). -/
def QUESTION_MAX_LENGTH : Nat := 1000

/-- Embeds the pydantic validation of `QuestionRequest`
(app/schemas/question.py lines 5-14): `min_length=1, max_length=1000`
counted in characters. -/
def questionRequestValid (user_question : String) : Bool :=
  QUESTION_MIN_LENGTH ≤ user_question.length && user_question.length ≤ QUESTION_MAX_LENGTH

/-- Squared euclidean norm, used to state the zero-norm condition. -/
def sumSq (v : List ℚ) : ℚ :=
  (v.map (fun x => x * x)).sum

/-- Concrete FAQ row for concrete evaluations. -/
def faq1 : FAQ :=
  { id := 1, question := "How do I reset my password?",
    answer := "Use the forgot password link.",
    embedding := some [1, 0], collection_name := "default" }

/-- FAQ row whose stored embedding has zero norm. -/
def faqZero : FAQ :=
  { id := 7, question := "zero question", answer := "zero answer",
    embedding := some [0, 0, 0], collection_name := "default" }

/-- Concrete environment where the best similarity is 0.86019, above the
default threshold 0.85. -/
def envC1 : Env :=
  { classifyRaw := some "IT_RELATED", embed := fun _ => [1, 0],
    sim := fun _ _ => 86019 / 100000, corpus := [faq1],
    threshold := 85 / 100, openaiAnswer := fun _ => "generated answer" }

/-- Concrete environment where the best similarity is 0.12346, below the
default threshold 0.85. -/
def envC2 : Env :=
  { classifyRaw := some "IT_RELATED", embed := fun _ => [1, 0],
    sim := fun _ _ => 6173 / 50000, corpus := [faq1],
    threshold := 85 / 100, openaiAnswer := fun _ => "generated answer" }

/-- Concrete environment whose classification completion is off-topic. -/
def envC3 : Env :=
  { classifyRaw := some "OFF_TOPIC", embed := fun _ => [1, 0],
    sim := fun _ _ => 86019 / 100000, corpus := [faq1],
    threshold := 85 / 100, openaiAnswer := fun _ => "generated answer" }

/-- Two-row corpus whose rows tie on similarity, for the tie-break witness. -/
def faqTieA : FAQ :=
  { id := 11, question := "first question", answer := "first answer",
    embedding := some [1, 0], collection_name := "default" }

/-- Second tied row, stored after `faqTieA`. -/
def faqTieB : FAQ :=
  { id := 12, question := "second question", answer := "second answer",
    embedding := some [1, 0], collection_name := "default" }

/-- Spec-side restatement of the collection filter, used to compare the
claimed row-participation rule with the one the code applies: a row passes
when the filter is absent, empty (Python falsy), or matches the row. -/
def collectionOk (cn : Option String) (name : String) : Bool :=
  match cn with
  | some c => if c = "" then true else name == c
  | none => true

/-- Operation that fails on attempts 1 and 2 and succeeds on attempt 3. -/
def opFailTwice : Nat → Except String String :=
  fun n => if n = 3 then Except.ok "done" else Except.error "boom"

/-! Helper lemmas about the running-best selection and the retry loop. -/

/-- The running best of `pickBest` either keeps the seed (when nothing beats
it strictly) or lands on a row that strictly beats the seed and every row
before it, and is at least every row after it. -/
lemma pickBest_spec (xs : List (FAQ × ℚ)) :
    ∀ b : FAQ × ℚ,
      (pickBest b xs = b ∧ ∀ x ∈ xs, x.2 ≤ b.2) ∨
      (∃ l₁ l₂, xs = l₁ ++ pickBest b xs :: l₂ ∧ b.2 < (pickBest b xs).2 ∧
        (∀ x ∈ l₁, x.2 < (pickBest b xs).2) ∧ (∀ x ∈ l₂, x.2 ≤ (pickBest b xs).2)) := by
  induction xs with
  | nil =>
    intro b
    left
    exact ⟨rfl, by simp⟩
  | cons x xs ih =>
    intro b
    by_cases hbx : b.2 < x.2
    · have hred : pickBest b (x :: xs) = pickBest x xs := by simp [pickBest, hbx]
      rcases ih x with ⟨heq, hall⟩ | ⟨l₁, l₂, hxs, hlt, h₁, h₂⟩
      · right
        refine ⟨[], xs, ?_, ?_, by simp, ?_⟩
        · rw [hred, heq]
          rfl
        · rw [hred, heq]
          exact hbx
        · intro y hy
          rw [hred, heq]
          exact hall y hy
      · right
        refine ⟨x :: l₁, l₂, ?_, ?_, ?_, ?_⟩
        · rw [hred, List.cons_append]
          exact congrArg (x :: ·) hxs
        · rw [hred]
          exact lt_trans hbx hlt
        · intro y hy
          rw [hred]
          rcases List.mem_cons.mp hy with rfl | hy'
          · exact hlt
          · exact h₁ y hy'
        · intro y hy
          rw [hred]
          exact h₂ y hy
    · have hred : pickBest b (x :: xs) = pickBest b xs := by simp [pickBest, hbx]
      have hxb : x.2 ≤ b.2 := le_of_not_lt hbx
      rcases ih b with ⟨heq, hall⟩ | ⟨l₁, l₂, hxs, hlt, h₁, h₂⟩
      · left
        refine ⟨by rw [hred, heq], ?_⟩
        intro y hy
        rcases List.mem_cons.mp hy with rfl | hy'
        · exact hxb
        · exact hall y hy'
      · right
        refine ⟨x :: l₁, l₂, ?_, ?_, ?_, ?_⟩
        · rw [hred, List.cons_append]
          exact congrArg (x :: ·) hxs
        · rw [hred]
          exact hlt
        · intro y hy
          rw [hred]
          rcases List.mem_cons.mp hy with rfl | hy'
          · exact lt_of_le_of_lt hxb hlt
          · exact h₁ y hy'
        · intro y hy
          rw [hred]
          exact h₂ y hy

/-- The top row of the descending ordering splits the scored rows into a
strictly-smaller part before it and a no-larger part after it. -/
lemma bestScored_spec (rows : List (FAQ × ℚ)) (f : FAQ) (s : ℚ)
    (h : bestScored rows = some (f, s)) :
    ∃ l₁ l₂, rows = l₁ ++ (f, s) :: l₂ ∧ (∀ x ∈ l₁, x.2 < s) ∧ (∀ x ∈ l₂, x.2 ≤ s) := by
  cases rows with
  | nil => simp [bestScored] at h
  | cons x xs =>
    have hp : pickBest x xs = (f, s) := by simpa [bestScored] using h
    rcases pickBest_spec xs x with ⟨heq, hall⟩ | ⟨l₁, l₂, hxs, hlt, h₁, h₂⟩
    · have hx : x = (f, s) := heq.symm.trans hp
      refine ⟨[], xs, ?_, by simp, ?_⟩
      · rw [hx]
        rfl
      · intro y hy
        have := hall y hy
        rw [hx] at this
        exact this
    · rw [hp] at hxs hlt h₁ h₂
      refine ⟨x :: l₁, l₂, ?_, ?_, h₂⟩
      · rw [List.cons_append]
        exact congrArg (x :: ·) hxs
      · intro y hy
        rcases List.mem_cons.mp hy with rfl | hy'
        · exact hlt
        · exact h₁ y hy'

/-- The deterministic refinement used to execute concrete runs always picks
an outcome the unordered SQL selection could have produced. -/
lemma search_similar_faq_admissible (sim : List ℚ → List ℚ → ℚ) (embed : String → List ℚ)
    (corpus : List FAQ) (q : String) (cn : Option String) (f : FAQ) (s : ℚ)
    (h : search_similar_faq sim embed corpus q cn = (some f, s)) :
    firstRowAdmissible (scoredRows sim corpus (embed q) cn) (some (f, s)) := by
  cases hrows : bestScored (scoredRows sim corpus (embed q) cn) with
  | none => simp [search_similar_faq, hrows] at h
  | some p =>
    obtain ⟨g, t⟩ := p
    have hgt : g = f ∧ t = s := by simpa [search_similar_faq, hrows] using h
    rw [hgt.1, hgt.2] at hrows
    obtain ⟨l₁, l₂, hsplit, h₁, h₂⟩ := bestScored_spec _ f s hrows
    constructor
    · rw [hsplit]
      exact List.mem_append_right _ (List.mem_cons_self _ _)
    · intro x hx
      rw [hsplit] at hx
      rcases List.mem_append.mp hx with hx | hx
      · exact le_of_lt (h₁ x hx)
      · rcases List.mem_cons.mp hx with rfl | hx
        · exact le_rfl
        · exact h₂ x hx

/-- Closed-form evaluation of the three-attempt retry loop. -/
lemma retryRun_eval (op : Nat → Except String String) :
    retry_on_api_error op =
      match op 1 with
      | Except.ok a => (Except.ok a, [1], [])
      | Except.error _ =>
        match op 2 with
        | Except.ok a => (Except.ok a, [1, 2], [retryWait 1])
        | Except.error _ => (op 3, [1, 2, 3], [retryWait 1, retryWait 2]) := by
  rcases h1 : op 1 with e1 | a1 <;> rcases h2 : op 2 with e2 | a2 <;>
    simp [retry_on_api_error, RETRY_MAX_ATTEMPTS, retryRun, h1, h2]

/-! Claim theorems. -/

/-- C1 (counterexample to the claim as stated): a concrete in-domain run whose
best score 0.86019 is above the threshold 0.85 with a candidate present, yet
the returned `similarity_score` is the rounded 0.8602, not the exact score:
`round(similarity_score, 4)` is applied to the returned value
(endpoints.py line 97). -/
theorem C1_exact_score_counterexample :
    classify_question envC1.classifyRaw = true ∧
    search_similar_faq envC1.sim envC1.embed envC1.corpus
        (pyStripStr "How do I reset my password") none = (some faq1, 86019 / 100000) ∧
    envC1.threshold ≤ 86019 / 100000 ∧
    (ask_question envC1 "How do I reset my password").1 =
      AskResult.ok
        { source := "local", matched_question := faq1.question,
          answer := faq1.answer, similarity_score := some (4301 / 5000) } ∧
    (4301 / 5000 : ℚ) ≠ 86019 / 100000 := by
  have h1 : pyStripStr "How do I reset my password" = "How do I reset my password" := by decide
  have h0 : ("How do I reset my password" : String) ≠ "" := by decide
  have h2 : classify_question (some "IT_RELATED") = true := by decide
  refine ⟨h2, ?_, by norm_num [envC1], ?_, by norm_num⟩
  · rw [h1]
    norm_num [search_similar_faq, scoredRows, applyCollectionFilter, bestScored, pickBest,
      envC1, faq1]
  · norm_num [ask_question, h1, h0, h2, route_question, find_best_match, search_similar_faq,
      scoredRows, applyCollectionFilter, bestScored, pickBest, envC1, faq1,
      pyRound4, roundHalfEven]

/-- C1 (amended): for every in-domain question whose best corpus score `s`
satisfies `s >= threshold` (inclusive) with a candidate present, `answer()`
returns the envelope with `source = "local"`, the candidate's stored question
and answer, and `similarity_score = round(s, 4)`; the threshold decision
itself uses the raw score `s`, unrounded. -/
theorem C1_local_hit_envelope (env : Env) (q : String) (f : FAQ) (s : ℚ)
    (hq : pyStripStr q ≠ "")
    (hin : classify_question env.classifyRaw = true)
    (hsearch : search_similar_faq env.sim env.embed env.corpus (pyStripStr q) none
      = (some f, s))
    (hthr : env.threshold ≤ s) :
    (ask_question env q).1 =
      AskResult.ok
        { source := "local", matched_question := f.question,
          answer := f.answer, similarity_score := some (pyRound4 s) } := by
  simp [ask_question, hq, route_question, hin, find_best_match, hsearch, hthr]

/-- C1 witness: the amended theorem applied at the concrete environment of
the counterexample. -/
theorem C1_local_hit_envelope_witness :
    (ask_question envC1 "How do I reset my password").1 =
      AskResult.ok
        { source := "local", matched_question := faq1.question,
          answer := faq1.answer,
          similarity_score := some (pyRound4 (86019 / 100000)) } :=
  C1_local_hit_envelope envC1 "How do I reset my password" faq1 (86019 / 100000)
    (by decide)
    (by decide)
    (by
      have h1 : pyStripStr "How do I reset my password" = "How do I reset my password" := by
        decide
      rw [h1]
      norm_num [search_similar_faq, scoredRows, applyCollectionFilter, bestScored, pickBest,
        envC1, faq1])
    (by norm_num [envC1])

/-- C2 (counterexample to the claim as stated): a concrete in-domain run whose
best score 0.12346 is below the threshold 0.85 with a candidate present; the
envelope is generated ("openai") as claimed, but its `similarity_score` is the
rounded 0.1235, not the best score found (endpoints.py line 110). -/
theorem C2_exact_score_counterexample :
    classify_question envC2.classifyRaw = true ∧
    search_similar_faq envC2.sim envC2.embed envC2.corpus
        (pyStripStr "How do I reset my password") none = (some faq1, 6173 / 50000) ∧
    (6173 / 50000 : ℚ) < envC2.threshold ∧
    (ask_question envC2 "How do I reset my password").1 =
      AskResult.ok
        { source := "openai", matched_question := "N/A",
          answer := "generated answer", similarity_score := some (247 / 2000) } ∧
    (247 / 2000 : ℚ) ≠ 6173 / 50000 := by
  have h1 : pyStripStr "How do I reset my password" = "How do I reset my password" := by decide
  have h0 : ("How do I reset my password" : String) ≠ "" := by decide
  have h2 : classify_question (some "IT_RELATED") = true := by decide
  refine ⟨h2, ?_, by norm_num [envC2], ?_, by norm_num⟩
  · rw [h1]
    norm_num [search_similar_faq, scoredRows, applyCollectionFilter, bestScored, pickBest,
      envC2, faq1]
  · norm_num [ask_question, h1, h0, h2, route_question, find_best_match, search_similar_faq,
      scoredRows, applyCollectionFilter, bestScored, pickBest, envC2, faq1,
      pyRound4, roundHalfEven]

/-- C2 (amended): for every in-domain question where the best score is below
the threshold or no candidate exists, `answer()` returns the generated
("openai") envelope whose answer comes from the fallback generator and whose
`similarity_score` is `round(s, 4)` when a candidate existed and absent
otherwise; an empty filtered corpus yields the no-candidate match `(none, 0)`
rather than an error. -/
theorem C2_generated_envelope (env : Env) (q : String) (faqOpt : Option FAQ) (s : ℚ)
    (hq : pyStripStr q ≠ "")
    (hin : classify_question env.classifyRaw = true)
    (hsearch : search_similar_faq env.sim env.embed env.corpus (pyStripStr q) none
      = (faqOpt, s))
    (hmiss : faqOpt = none ∨ s < env.threshold) :
    (ask_question env q).1 =
      AskResult.ok
        { source := "openai", matched_question := "N/A",
          answer := env.openaiAnswer (pyStripStr q),
          similarity_score := if faqOpt.isSome then some (pyRound4 s) else none } ∧
    (scoredRows env.sim env.corpus (env.embed (pyStripStr q)) none = [] →
      faqOpt = none ∧ s = 0) := by
  constructor
  · rcases faqOpt with _ | f
    · simp [ask_question, hq, route_question, hin, find_best_match, hsearch]
    · rcases hmiss with h | h
      · exact absurd h (by simp)
      · have hnot : ¬ env.threshold ≤ s := not_le.mpr h
        simp [ask_question, hq, route_question, hin, find_best_match, hsearch, hnot]
  · intro hrows
    have hb : bestScored (scoredRows env.sim env.corpus (env.embed (pyStripStr q)) none)
        = none := by
      rw [hrows]
      rfl
    have h2 := hsearch
    simp [search_similar_faq, hb] at h2
    exact ⟨h2.1.symm, h2.2.symm⟩

/-- C2 witness: the amended theorem applied at the concrete below-threshold
environment of the counterexample. -/
theorem C2_generated_envelope_witness :
    (ask_question envC2 "How do I reset my password").1 =
      AskResult.ok
        { source := "openai", matched_question := "N/A",
          answer := envC2.openaiAnswer (pyStripStr "How do I reset my password"),
          similarity_score :=
            if (some faq1).isSome then some (pyRound4 (6173 / 50000)) else none } :=
  (C2_generated_envelope envC2 "How do I reset my password" (some faq1) (6173 / 50000)
    (by decide)
    (by decide)
    (by
      have h1 : pyStripStr "How do I reset my password" = "How do I reset my password" := by
        decide
      rw [h1]
      norm_num [search_similar_faq, scoredRows, applyCollectionFilter, bestScored, pickBest,
        envC2, faq1])
    (Or.inr (by norm_num [envC2]))).1

/-- C3: for every question that survives the emptiness check and is classified
off-topic, `answer()` returns the off-topic envelope — source tag
"compliance" (the code's rendering of the spec's `off_topic`), the fixed
compliance text, the "N/A" sentinel for `matched_question`, and no
similarity score — and neither the similarity search nor the embedding call
ever happens on that question. -/
theorem C3_off_topic_envelope (env : Env) (q : String)
    (hq : pyStripStr q ≠ "")
    (hoff : classify_question env.classifyRaw = false) :
    (ask_question env q).1 =
      AskResult.ok
        { source := "compliance", matched_question := "N/A",
          answer := COMPLIANCE_MESSAGE, similarity_score := none } ∧
    CallTag.similarityCall ∉ (ask_question env q).2 ∧
    CallTag.embedCall ∉ (ask_question env q).2 := by
  simp [ask_question, hq, route_question, hoff, get_compliance_response]

/-- C3 witness: a concrete off-topic classification ("OFF_TOPIC" completion)
on a weather question. -/
theorem C3_off_topic_envelope_witness :
    (ask_question envC3 "what is the weather today").1 =
      AskResult.ok
        { source := "compliance", matched_question := "N/A",
          answer := COMPLIANCE_MESSAGE, similarity_score := none } ∧
    CallTag.similarityCall ∉ (ask_question envC3 "what is the weather today").2 ∧
    CallTag.embedCall ∉ (ask_question envC3 "what is the weather today").2 :=
  C3_off_topic_envelope envC3 "what is the weather today" (by decide) (by decide)

/-- C4: an outright classifier failure (exception after retries, modelled as
an absent completion) is absorbed: classification fails open to in-domain and
routing continues, rather than propagating the error
(router.py lines 60-63). -/
theorem C4_classifier_fail_open :
    classify_question none = true ∧ route_question none = ("it_related", true) := by
  constructor <;> rfl

/-- C5: the retry wrapper makes at most 3 attempts; a success at or before
attempt 3 (all earlier attempts failing) returns that value; three failures
re-raise the last error unchanged; the wait slept before each retry is
`retryWait` of the just-failed attempt, which equals
`min(ceiling, max(floor, multiplier * 2 ^ (attempt - 1)))` with multiplier 1,
floor 2 and ceiling 10. -/
theorem C5_retry_policy (op : Nat → Except String String) :
    (∀ k a, 1 ≤ k → k ≤ RETRY_MAX_ATTEMPTS → op k = Except.ok a →
        (∀ j, 1 ≤ j → j < k → ∃ e, op j = Except.error e) →
        (retry_on_api_error op).1 = Except.ok a) ∧
    (∀ e1 e2 e3, op 1 = Except.error e1 → op 2 = Except.error e2 →
        op 3 = Except.error e3 → (retry_on_api_error op).1 = Except.error e3) ∧
    (retry_on_api_error op).2.1.length ≤ RETRY_MAX_ATTEMPTS ∧
    (∀ i ∈ (retry_on_api_error op).2.1, 1 ≤ i ∧ i ≤ RETRY_MAX_ATTEMPTS) ∧
    (retry_on_api_error op).2.2 = ((retry_on_api_error op).2.1.dropLast).map retryWait ∧
    (∀ a, 1 ≤ a →
      retryWait a = min RETRY_MAX_WAIT (max RETRY_MIN_WAIT (RETRY_MULTIPLIER * 2 ^ (a - 1)))) := by
  refine ⟨?_, ?_, ?_, ?_, ?_, ?_⟩
  · intro k a hk1 hk3 hok hprev
    rw [RETRY_MAX_ATTEMPTS] at hk3
    interval_cases k
    · rw [retryRun_eval, hok]
    · obtain ⟨e1, h1⟩ := hprev 1 le_rfl (by norm_num)
      rw [retryRun_eval, h1, hok]
    · obtain ⟨e1, h1⟩ := hprev 1 le_rfl (by norm_num)
      obtain ⟨e2, h2⟩ := hprev 2 (by norm_num) (by norm_num)
      rw [retryRun_eval, h1, h2]
      exact hok
  · intro e1 e2 e3 h1 h2 h3
    rw [retryRun_eval, h1, h2]
    exact h3
  · rw [retryRun_eval, RETRY_MAX_ATTEMPTS]
    rcases h1 : op 1 with e1 | a1 <;> rcases h2 : op 2 with e2 | a2 <;> simp
  · rw [retryRun_eval, RETRY_MAX_ATTEMPTS]
    rcases h1 : op 1 with e1 | a1 <;> rcases h2 : op 2 with e2 | a2 <;>
      intro i hi <;> simp at hi <;> omega
  · rw [retryRun_eval]
    rcases h1 : op 1 with e1 | a1 <;> rcases h2 : op 2 with e2 | a2 <;> simp
  · intro a _
    rw [retryWait, RETRY_MIN_WAIT, RETRY_MAX_WAIT, RETRY_MULTIPLIER]
    rw [show max (0 : ℚ) 2 = 2 from by norm_num, one_mul]
    rw [max_min_distrib_left, show max (2 : ℚ) 10 = 10 from by norm_num, min_comm]

/-- C5 witness: an operation failing on attempts 1 and 2 and succeeding on
attempt 3 returns the success value, having slept the clamped waits 2s, 2s. -/
theorem C5_retry_policy_witness :
    (retry_on_api_error opFailTwice).1 = Except.ok "done" ∧
    (retry_on_api_error opFailTwice).2.2 = [2, 2] := by
  constructor
  · exact (C5_retry_policy opFailTwice).1 3 "done" (by norm_num)
      (by rw [RETRY_MAX_ATTEMPTS]) rfl
      (by
        intro j hj1 hjk
        interval_cases j <;> exact ⟨"boom", rfl⟩)
  · norm_num [retry_on_api_error, RETRY_MAX_ATTEMPTS, retryRun, opFailTwice, retryWait,
      RETRY_MIN_WAIT, RETRY_MAX_WAIT, RETRY_MULTIPLIER]

/-- C6 (counterexample to the claim as stated): the completion "yes" is
classified in-domain although the in-domain marker token `IT_RELATED` is not
present in the uppercased text — the code also accepts the token `YES`
(router.py line 51), so presence of the marker is sufficient but not
necessary. -/
theorem C6_yes_token_counterexample :
    classify_question (some "yes") = true ∧
    hasTok "IT_RELATED".toList ((pyStrip "yes".toList).map Char.toUpper) = false := by
  constructor <;> decide

/-- C6 (amended): a successful completion is stripped, uppercased, and
classified in-domain exactly when the result contains the marker `IT_RELATED`
or the token `YES`; any other output, including unparseable output, yields
the complementary (off-topic) class. -/
theorem C6_classifier_parsing (content : String) :
    classify_question (some content) = true ↔
      (hasTok "IT_RELATED".toList ((pyStrip content.toList).map Char.toUpper) = true ∨
       hasTok "YES".toList ((pyStrip content.toList).map Char.toUpper) = true) := by
  simp [classify_question]

/-- C7 (counterexample to the claim as stated): on a corpus whose two rows
tie on the maximal similarity, both rows are admissible results of the
similarity query for the same question embedding and unchanged corpus — the
query orders on the similarity label alone with no secondary sort key
(similarity.py line 51) and PostgreSQL guarantees no stable or tie order —
so "always returns the same best candidate, ties broken by stable corpus
order (first inserted wins)" is not a property the program guarantees. -/
theorem C7_tie_counterexample :
    firstRowAdmissible (scoredRows (fun _ _ => (1 : ℚ) / 2) [faqTieA, faqTieB] [1, 0] none)
      (some (faqTieA, 1 / 2)) ∧
    firstRowAdmissible (scoredRows (fun _ _ => (1 : ℚ) / 2) [faqTieA, faqTieB] [1, 0] none)
      (some (faqTieB, 1 / 2)) ∧
    faqTieA ≠ faqTieB := by
  refine ⟨?_, ?_, ?_⟩
  · norm_num [firstRowAdmissible, scoredRows, applyCollectionFilter, faqTieA, faqTieB]
  · norm_num [firstRowAdmissible, scoredRows, applyCollectionFilter, faqTieA, faqTieB]
  · simp [faqTieA, faqTieB]

/-- C7 (amended): every result the similarity query may return for a fixed
question embedding and unchanged corpus is a row of maximal similarity among
the scored rows, the no-row result occurs exactly when no row survives the
filters, and when one row strictly beats every other the result is uniquely
determined; when two rows tie on the maximal similarity the code leaves the
choice between them to the database (no secondary sort key), so determinism
holds only up to that unspecified tie order, not by first-inserted-wins. -/
theorem C7_matcher_maximal (sim : List ℚ → List ℚ → ℚ) (corpus : List FAQ)
    (query_embedding : List ℚ) (cn : Option String) :
    (firstRowAdmissible (scoredRows sim corpus query_embedding cn) none ↔
      scoredRows sim corpus query_embedding cn = []) ∧
    (∀ f s, firstRowAdmissible (scoredRows sim corpus query_embedding cn) (some (f, s)) →
      (f, s) ∈ scoredRows sim corpus query_embedding cn ∧
      ∀ x ∈ scoredRows sim corpus query_embedding cn, x.2 ≤ s) ∧
    (∀ f s g t,
      firstRowAdmissible (scoredRows sim corpus query_embedding cn) (some (f, s)) →
      firstRowAdmissible (scoredRows sim corpus query_embedding cn) (some (g, t)) →
      (∀ x ∈ scoredRows sim corpus query_embedding cn, x ≠ (f, s) → x.2 < s) →
      (g, t) = (f, s)) := by
  refine ⟨Iff.rfl, ?_, ?_⟩
  · intro f s h
    exact h
  · intro f s g t hf hg hstrict
    by_contra hne
    have hlt : t < s := hstrict (g, t) hg.1 hne
    have hle : s ≤ t := hg.2 (f, s) hf.1
    exact absurd hle (not_le.mpr hlt)

/-- C7 witness: the amended theorem applied to one admissible result of the
tied two-row corpus, yielding its membership and maximality. -/
theorem C7_matcher_maximal_witness :
    (faqTieA, (1 : ℚ) / 2) ∈
      scoredRows (fun _ _ => (1 : ℚ) / 2) [faqTieA, faqTieB] [1, 0] none ∧
    ∀ x ∈ scoredRows (fun _ _ => (1 : ℚ) / 2) [faqTieA, faqTieB] [1, 0] none, x.2 ≤ 1 / 2 :=
  (C7_matcher_maximal (fun _ _ => (1 : ℚ) / 2) [faqTieA, faqTieB] [1, 0] none).2.1
    faqTieA (1 / 2)
    (by norm_num [firstRowAdmissible, scoredRows, applyCollectionFilter, faqTieA, faqTieB])

/-- C8 (counterexample to the claim as stated): a stored row whose embedding
is the zero vector participates in the comparison — the code's only row
filter is `FAQ.embedding.isnot(None)` (similarity.py line 42) — and is
returned as the best candidate with a similarity score instead of being
rejected as a data-integrity error. -/
theorem C8_zero_norm_counterexample :
    faqZero ∈ applyCollectionFilter none ([faqZero].filter (fun f => f.embedding.isSome)) ∧
    sumSq (faqZero.embedding.getD []) = 0 ∧
    (search_similar_faq (fun _ _ => 0) (fun _ => [1, 0, 0]) [faqZero] "any question" none).1
      = some faqZero := by
  refine ⟨?_, by norm_num [faqZero, sumSq], ?_⟩
  · simp [applyCollectionFilter, faqZero]
  · norm_num [search_similar_faq, scoredRows, applyCollectionFilter, bestScored, pickBest,
      faqZero]

/-- C8 (amended): a stored row participates in the similarity comparison
exactly when its embedding is present and it passes the optional collection
filter; no zero-norm (or any other data-integrity) check is applied, so
zero-norm embeddings are scored like any other row. -/
theorem C8_participation_filter (corpus : List FAQ) (cn : Option String) (f : FAQ) :
    f ∈ applyCollectionFilter cn (corpus.filter (fun g => g.embedding.isSome)) ↔
      (f ∈ corpus ∧ f.embedding.isSome = true ∧ collectionOk cn f.collection_name = true) := by
  cases cn with
  | none => simp [applyCollectionFilter, collectionOk, List.mem_filter]
  | some c =>
    by_cases hc : c = ""
    · simp [applyCollectionFilter, collectionOk, hc, List.mem_filter]
    · simp only [applyCollectionFilter, collectionOk, hc, if_false, List.mem_filter,
        beq_iff_eq, and_assoc, if_neg hc]

/-- C9: a question that is empty after trimming is rejected with the 400
validation error before any remote call happens — the call log is empty and
the pipeline state machine never starts (endpoints.py lines 59-65). -/
theorem C9_empty_question_rejected (env : Env) (q : String)
    (hq : pyStripStr q = "") :
    ask_question env q = (AskResult.httpError 400 "Question cannot be empty", []) := by
  simp [ask_question, hq]

/-- C9 witness: a whitespace-only question is rejected with no calls made. -/
theorem C9_empty_question_witness :
    pyStripStr "   " = "" ∧
    ask_question envC3 "   " = (AskResult.httpError 400 "Question cannot be empty", []) :=
  ⟨by decide, C9_empty_question_rejected envC3 "   " (by decide)⟩

/-- C10: the request schema bounds the question length — the empty string is
rejected and validity holds exactly when the character count is between 1 and
1000 inclusive (app/schemas/question.py lines 8-14), so every question the
pipeline processes satisfies those bounds. -/
theorem C10_question_length_bounds :
    questionRequestValid "" = false ∧
    ∀ q : String, (questionRequestValid q = true ↔ (1 ≤ q.length ∧ q.length ≤ 1000)) := by
  constructor
  · decide
  · intro q
    simp [questionRequestValid, QUESTION_MIN_LENGTH, QUESTION_MAX_LENGTH]
